import Mathlib

/-!
Verification of the stronghold secret-management engine against its design
specification.

The repository's visible source consists of the C entropy source
(`src/parti/random/c_src/rng.c`, the function `os_random_secrandom`) and the
C/C++ interface headers of the native engine bindings
(`native.h`, `native.hpp`, `stronghold_native.h`).  The entropy source is
embedded here directly from the C code; the engine behind the headers is not
in the visible source, so its operations are modelled from the specification
(each such definition says so in its doc comment).
-/

set_option autoImplicit false

namespace Stronghold

/-! ## Entropy source: embedding of `rng.c`

`os_random_secrandom(uint8_t *buf, size_t len)` is compiled under exactly one
of five configuration macros (`USE_GETRANDOM`, `USE_ARC4RANDOM`,
`USE_SECRANDOM`, `USE_CRYPTGENRANDOM`, `USE_DEV_RANDOM`), selected by an
`#if`/`#elif` chain, with `#error` when none is defined.  We model the macro
set as a record of booleans, the selected branch as a `Backend`, and the
behaviour of the platform calls as an environment `RngEnv`:

* `getrandom(buf, len, 0)` returns -1 on failure, and otherwise the number of
  bytes it actually wrote, which the platform documentation allows to be
  fewer than `len` when `len > 256` or the call is interrupted by a signal;
  modelled as `Option Nat` (`none` = -1), clamped to `len`.
* `arc4random_buf` always fills the buffer and cannot fail.
* `SecRandomCopyBytes` either fills all `len` bytes and reports
  `errSecSuccess`, or fails.
* `CryptAcquireContext` and `CryptGenRandom` each either succeed or fail;
  on success all `len` bytes are written.
* `fopen("/dev/urandom", "r")` may fail; `fread(buf, 1, len, f)` returns the
  number of bytes read, between `0` and `len`; modelled as a stream
  `freadResults : Nat → Nat` of successive results, clamped to the bytes
  still requested.

The value of `os_random_secrandom` is the pair
(returned status code, number of buffer bytes filled from the random source).
-/

/-- The five compile-time entropy backends of `rng.c`. -/
inductive Backend where
  | getrandom
  | arc4random
  | secrandom
  | cryptgenrandom
  | devrandom
deriving DecidableEq

/-- Which of the five configuration macros are defined at build time. -/
structure RngConfig where
  useGetrandom : Bool
  useArc4random : Bool
  useSecrandom : Bool
  useCryptgenrandom : Bool
  useDevRandom : Bool

/-- The `#if defined(USE_GETRANDOM) / #elif ... / #else #error` chain of
`rng.c`: the first defined macro selects the backend, and no defined macro
means the translation unit does not compile (`none`). -/
def selectBackend (c : RngConfig) : Option Backend :=
  if c.useGetrandom then some .getrandom
  else if c.useArc4random then some .arc4random
  else if c.useSecrandom then some .secrandom
  else if c.useCryptgenrandom then some .cryptgenrandom
  else if c.useDevRandom then some .devrandom
  else none

/-- Outcomes of the platform calls the chosen backend may perform. -/
structure RngEnv where
  /-- Result of `getrandom(buf, len, 0)`: `none` models the return value -1,
  `some n` models a return of `n` bytes written (clamped to `len` where
  used, since `getrandom` never writes more than requested). -/
  getrandomResult : Option Nat
  /-- Whether `SecRandomCopyBytes` returns `errSecSuccess`. -/
  secRandomOk : Bool
  /-- Whether `CryptAcquireContext` succeeds. -/
  cryptAcquireOk : Bool
  /-- Whether `CryptGenRandom` succeeds. -/
  cryptGenOk : Bool
  /-- Whether `fopen("/dev/urandom", "r")` succeeds. -/
  fopenOk : Bool
  /-- Successive results of `fread(buf, 1, len, urandom)` (clamped to the
  bytes still requested, since `fread` never reads more than asked). -/
  freadResults : Nat → Nat

/-- The `while (len)` read loop of the `USE_DEV_RANDOM` branch of `rng.c`:
`k` counts the `fread` calls made so far, `len` is the number of bytes still
to read, `filled` the number of bytes already placed in the buffer.  An
`fread` result of 0 makes the function return 1; otherwise the remaining
length decreases by the bytes read.  Returns (status, bytes filled). -/
def devLoop (reads : Nat → Nat) (k len filled : Nat) : Nat × Nat :=
  if h : len = 0 then (0, filled)
  else
    let r := min (reads k) len
    if hr : r = 0 then (1, filled)
    else devLoop reads (k + 1) (len - r) (filled + r)
termination_by len
decreasing_by
  exact Nat.sub_lt (Nat.pos_of_ne_zero h) (Nat.pos_of_ne_zero hr)

/-- The same read loop with an explicit iteration budget (`fuel`): `none`
means the budget was exhausted before the loop produced a result.  Used to
state that the loop always terminates within `len` iterations. -/
def devLoopFuel (reads : Nat → Nat) (fuel k len filled : Nat) : Option (Nat × Nat) :=
  if len = 0 then some (0, filled)
  else
    match fuel with
    | 0 => none
    | fuel' + 1 =>
      let r := min (reads k) len
      if r = 0 then some (1, filled)
      else devLoopFuel reads fuel' (k + 1) (len - r) (filled + r)

/-- `os_random_secrandom` of `rng.c`, compiled under backend `b`, run in
platform environment `env` on a request of `len` bytes.  Returns the pair
(status code, number of buffer bytes filled from the random source). -/
def os_random_secrandom (b : Backend) (env : RngEnv) (len : Nat) : Nat × Nat :=
  match b with
  | .getrandom =>
    match env.getrandomResult with
    | none => (1, 0)
    | some n => (0, min n len)
  | .arc4random => (0, len)
  | .secrandom => if env.secRandomOk then (0, len) else (1, 0)
  | .cryptgenrandom =>
    if env.cryptAcquireOk then
      if env.cryptGenOk then (0, len) else (1, 0)
    else (1, 0)
  | .devrandom =>
    if env.fopenOk then devLoop env.freadResults 0 len 0 else (1, 0)

/-- The compiled entropy function of a build configuration: `none` when the
`#else #error` branch is taken (the build fails), otherwise the function of
the single selected backend. -/
def osRandomBuild (c : RngConfig) : Option (RngEnv → Nat → Nat × Nat) :=
  (selectBackend c).map (fun b => os_random_secrandom b)

/-- Per backend, whether the platform calls the backend makes before (or
while) producing bytes all succeed in environment `env`. -/
def setupOk : Backend → RngEnv → Bool
  | .getrandom, e => e.getrandomResult.isSome
  | .arc4random, _ => true
  | .secrandom, e => e.secRandomOk
  | .cryptgenrandom, e => e.cryptAcquireOk && e.cryptGenOk
  | .devrandom, e => e.fopenOk

/-! ### Lemmas about the `/dev/urandom` read loop -/

theorem devLoop_zero (reads : Nat → Nat) (k filled : Nat) :
    devLoop reads k 0 filled = (0, filled) := by
  rw [devLoop]; simp

theorem devLoop_status (reads : Nat → Nat) (k len filled : Nat) :
    (devLoop reads k len filled).1 = 0 ∨ (devLoop reads k len filled).1 = 1 := by
  induction len using Nat.strong_induction_on generalizing k filled with
  | _ len ih =>
    rw [devLoop]
    by_cases h : len = 0
    · simp [h]
    · simp only [h, dite_false]
      by_cases hr : min (reads k) len = 0
      · simp [hr]
      · simp only [hr, dite_false]
        exact ih (len - min (reads k) len)
          (Nat.sub_lt (Nat.pos_of_ne_zero h) (Nat.pos_of_ne_zero hr)) _ _

theorem devLoopFuel_eq (reads : Nat → Nat) (fuel k len filled : Nat)
    (h : len ≤ fuel) :
    devLoopFuel reads fuel k len filled = some (devLoop reads k len filled) := by
  induction fuel using Nat.strong_induction_on generalizing k len filled with
  | _ fuel ih =>
    rw [devLoopFuel.eq_def, devLoop]
    by_cases h0 : len = 0
    · simp [h0]
    · simp only [h0, if_false, dite_false]
      cases fuel with
      | zero => omega
      | succ fuel' =>
        by_cases hr : min (reads k) len = 0
        · simp [hr]
        · simp only [hr, if_false, dite_false]
          exact ih fuel' (Nat.lt_succ_self _) _ _ _
            (Nat.le_of_lt_succ (Nat.lt_of_lt_of_le
              (Nat.sub_lt (Nat.pos_of_ne_zero h0) (Nat.pos_of_ne_zero hr)) h))

/-! ## Engine model

The engine behind `native.h` / `stronghold_native.h` is not part of the
visible source — the headers declare `create`, `load`, `generate_seed`,
`derive_seed`, `generate_ed25519_keypair`, `get_public_key` and `sign`, but
their bodies are elsewhere.  The definitions below are therefore modelled
from the specification (sections 3-4.6 and 7 of the design document), as the
doc comment of each says.
-/

/-- Byte strings crossing the engine boundary: each element is one byte. -/
abbrev Bytes := List Nat

/-- Modelled from the spec: a Record holds exactly one secret payload —
either a raw byte blob, a seed, or a keypair (public and private
component). -/
inductive Payload where
  | blob (data : Bytes)
  | seed (bytes : Bytes)
  | keypair (pub priv : Bytes)
deriving DecidableEq

/-- Modelled from the spec: the error kinds of the error-handling design. -/
inductive EngineError where
  | NotFound
  | AlreadyExists
  | AuthenticationFailed
  | EntropyUnavailable
  | InvalidArgument
  | UseAfterDestroy
deriving DecidableEq

/-- An association list keyed by strings, used for vaults and records. -/
def alistFind {α : Type} (l : List (String × α)) (k : String) : Option α :=
  match l with
  | [] => none
  | (k', v) :: t => if k' = k then some v else alistFind t k

/-- Insert or overwrite the binding of `k` in an association list. -/
def alistInsert {α : Type} (l : List (String × α)) (k : String) (v : α) :
    List (String × α) :=
  match l with
  | [] => [(k, v)]
  | (k', v') :: t =>
    if k' = k then (k, v) :: t else (k', v') :: alistInsert t k v

/-- Modelled from the spec: the Vault Directory, a namespace mapping
(vault key, record path) to secret payloads. -/
abbrev VaultMap := List (String × List (String × Payload))

/-- Modelled from the spec: `read(vault_key, record_path)`; `none` when the
vault or the record path is absent. -/
def vaultRead (st : VaultMap) (vk rp : String) : Option Payload :=
  match alistFind st vk with
  | none => none
  | some recs => alistFind recs rp

/-- Modelled from the spec: `write(vault_key, record_path, bytes)` — creates
the vault if absent, overwrites the record if present. -/
def vaultWrite (st : VaultMap) (vk rp : String) (p : Payload) : VaultMap :=
  match alistFind st vk with
  | none => alistInsert st vk [(rp, p)]
  | some recs => alistInsert st vk (alistInsert recs rp p)

/-- Record lookup by record path alone, as used by `get_public_key` and
`sign` in the headers (which take only a record path): the first record with
that path in the directory. -/
def findRecord (st : VaultMap) (rp : String) : Option Payload :=
  match st with
  | [] => none
  | (_, recs) :: t =>
    match alistFind recs rp with
    | some p => some p
    | none => findRecord t rp

/-- Modelled from the spec: the reserved record path under which
`generate_seed` stores the seed of a vault key. -/
def seedPath : String := "seed"

/-- Modelled from the spec: `generate_seed(vault_key)` — fails with
`AlreadyExists` if a seed already exists for that vault key, fails with
`EntropyUnavailable` if the Entropy Source errors, and otherwise stores the
drawn seed bytes as a Record under the reserved path. -/
def generate_seed (st : VaultMap) (vk : String) (entropy : Except Unit Bytes) :
    Except EngineError VaultMap :=
  match vaultRead st vk seedPath with
  | some _ => .error .AlreadyExists
  | none =>
    match entropy with
    | .error _ => .error .EntropyUnavailable
    | .ok bytes => .ok (vaultWrite st vk seedPath (.seed bytes))

/-- Modelled from the spec: the Engine Facade applying `generate_seed` to an
open snapshot — on failure the snapshot is kept unchanged (operations fully
succeed or fully fail).  Returns the resulting snapshot state and the error,
if any. -/
def applyGenerateSeed (st : VaultMap) (vk : String)
    (entropy : Except Unit Bytes) : VaultMap × Option EngineError :=
  match generate_seed st vk entropy with
  | .ok st' => (st', none)
  | .error e => (st, some e)

/-- The 32-bit address index serialised as four bytes, little endian. -/
def encodeIndex (i : Nat) : Bytes :=
  [i % 256, i / 256 % 256, i / 65536 % 256, i / 16777216 % 256]

/-- Left inverse of `encodeIndex` on indices below `2^32`. -/
def decodeIndex (b : Bytes) : Nat :=
  match b with
  | [b0, b1, b2, b3] => b0 + 256 * b1 + 65536 * b2 + 16777216 * b3
  | _ => 0

/-- Modelled from the spec: the fixed derivation function computing a child
key from (seed, address index) — a KDF over `seed ‖ index`.  The KDF itself
is not in the visible source; it is modelled as an injective function of its
input, here the input `seed ‖ index` itself. -/
def deriveKDF (seed : Bytes) (i : Nat) : Bytes :=
  seed ++ encodeIndex i

/-- Modelled from the spec: `derive_seed(vault_key, address_index)` —
deterministically computes the child key from the stored seed and the index;
fails with `NotFound` when no seed exists for the vault key. -/
def derive_seed (st : VaultMap) (vk : String) (i : Nat) :
    Except EngineError Bytes :=
  match vaultRead st vk seedPath with
  | some (.seed s) => .ok (deriveKDF s i)
  | _ => .error .NotFound

/-- Modelled from the spec: the public component of an Ed25519 keypair whose
private component is `priv`.  The scheme itself is not in the visible
source; the key computation is modelled as an arbitrary fixed function of
the private key. -/
def ed25519PublicKey (priv : Bytes) : Bytes :=
  priv.map (fun b => (b * 7 + 3) % 256)

/-- Modelled from the spec: `generate_ed25519_keypair(vault_key,
record_path)` — draws key material from the Entropy Source, stores the
keypair (private component included) in the Vault under the record path, and
returns only the public key bytes. -/
def generate_ed25519_keypair (st : VaultMap) (vk rp : String)
    (entropy : Except Unit Bytes) : Except EngineError (Bytes × VaultMap) :=
  match entropy with
  | .error _ => .error .EntropyUnavailable
  | .ok priv =>
    let pub := ed25519PublicKey priv
    .ok (pub, vaultWrite st vk rp (.keypair pub priv))

/-- Modelled from the spec: the Engine Facade applying
`generate_ed25519_keypair` to an open snapshot — on failure the snapshot is
kept unchanged (operations fully succeed or fully fail).  Returns the
resulting snapshot state and the error, if any. -/
def applyGenerateKeypair (st : VaultMap) (vk rp : String)
    (entropy : Except Unit Bytes) : VaultMap × Option EngineError :=
  match generate_ed25519_keypair st vk rp entropy with
  | .ok (_, st') => (st', none)
  | .error e => (st, some e)

/-- Modelled from the spec: the deterministic Ed25519 signature of `data`
under private key `priv` — a fixed-length 64-byte sequence, a pure function
of `(priv, data)` (no per-call randomness).  The scheme itself is not in the
visible source; it is modelled as a fixed 64-byte digest of its input. -/
def ed25519Sign (priv data : Bytes) : Bytes :=
  (List.range 64).map
    (fun i => (priv ++ data).foldl (fun a b => (a * 31 + b) % 256) (i % 256))

/-- Modelled from the spec: `sign(record_path, data)` — fails with
`NotFound` when no keypair exists at the record path, otherwise produces the
deterministic signature under the record's private key. -/
def sign (st : VaultMap) (rp : String) (data : Bytes) :
    Except EngineError Bytes :=
  match findRecord st rp with
  | some (.keypair _ priv) => .ok (ed25519Sign priv data)
  | _ => .error .NotFound

/-- Modelled from the spec: the encrypted on-disk snapshot — an
authenticated-encryption container.  `authKey` is the key the container was
created with (standing for the integrity tag binding payload to key);
decryption with any other key fails closed. -/
structure SnapshotFile where
  authKey : String
  payload : VaultMap

/-- Modelled from the spec: `create(path, key)` writing the vault state
`st` encrypted under `key`. -/
def snapshotCreate (key : String) (st : VaultMap) : SnapshotFile :=
  ⟨key, st⟩

/-- Modelled from the spec: `load(path, key)` — decryption and integrity
verification succeed exactly under the creation key; any other key yields
`AuthenticationFailed` and no vault data. -/
def load (f : SnapshotFile) (key : String) : Except EngineError VaultMap :=
  if key = f.authKey then .ok f.payload else .error .AuthenticationFailed

/-! ### Lemmas about the vault directory -/

theorem alistFind_insert_same {α : Type} (l : List (String × α)) (k : String)
    (v : α) : alistFind (alistInsert l k v) k = some v := by
  induction l with
  | nil => simp [alistInsert, alistFind]
  | cons hd t ih =>
    obtain ⟨k', v'⟩ := hd
    by_cases h : k' = k
    · simp [alistInsert, alistFind, h]
    · simp [alistInsert, alistFind, h, ih]

theorem vaultRead_write_same (st : VaultMap) (vk rp : String) (p : Payload) :
    vaultRead (vaultWrite st vk rp p) vk rp = some p := by
  unfold vaultWrite
  cases h : alistFind st vk with
  | none => simp [vaultRead, alistFind_insert_same, alistFind]
  | some recs => simp [vaultRead, alistFind_insert_same]

/-! ### Lemmas about index encoding and derivation -/

theorem decodeIndex_encodeIndex (i : Nat) (h : i < 4294967296) :
    decodeIndex (encodeIndex i) = i := by
  simp only [encodeIndex, decodeIndex]
  omega

theorem deriveKDF_index_inj (s : Bytes) (i j : Nat) (hi : i < 4294967296)
    (hj : j < 4294967296) (hne : i ≠ j) : deriveKDF s i ≠ deriveKDF s j := by
  intro h
  apply hne
  have henc : encodeIndex i = encodeIndex j := by
    unfold deriveKDF at h
    exact List.append_cancel_left h
  have hd := congrArg decodeIndex henc
  rwa [decodeIndex_encodeIndex i hi, decodeIndex_encodeIndex j hj] at hd

/-! ## The claims -/

/-- Claim C1: the claim states that whenever `os_random_secrandom` returns 0
all requested bytes have been filled — a partially-filled buffer is never
reported as success.  This fails on the `USE_GETRANDOM` branch, which
returns 0 whenever `getrandom` did not return -1: `getrandom` is documented
to possibly write fewer bytes than requested (for requests above 256 bytes,
or on signal interruption), and the branch does not loop to finish the read
the way the `USE_DEV_RANDOM` branch does.  Concretely, with 512 bytes
requested and `getrandom` writing only 256, the function reports success
with half the buffer unfilled. -/
theorem getrandom_short_read_reported_success :
    os_random_secrandom .getrandom
        ⟨some 256, true, true, true, true, fun _ => 0⟩ 512 = (0, 256) ∧
      (256 : Nat) < 512 := by
  exact ⟨rfl, by decide⟩

/-- Claim C8: in the `USE_DEV_RANDOM` backend, `os_random_secrandom`
terminates for every buffer length: the function is the read loop (after a
successful `fopen`), the loop completes within at most `len` iterations —
each iteration either returns the error 1 (on an `fread` of 0 bytes) or
strictly decreases the bytes still to read — and it always surfaces a
result, status 0 or 1. -/
theorem devrandom_read_loop_terminates (env : RngEnv) (len : Nat) :
    (os_random_secrandom .devrandom env len =
      if env.fopenOk then devLoop env.freadResults 0 len 0 else (1, 0)) ∧
    devLoopFuel env.freadResults len 0 len 0 =
      some (devLoop env.freadResults 0 len 0) ∧
    ((os_random_secrandom .devrandom env len).1 = 0 ∨
      (os_random_secrandom .devrandom env len).1 = 1) := by
  refine ⟨rfl, devLoopFuel_eq env.freadResults len 0 len 0 (Nat.le_refl _), ?_⟩
  show (if env.fopenOk then devLoop env.freadResults 0 len 0 else (1, 0)).1 = 0 ∨
    (if env.fopenOk then devLoop env.freadResults 0 len 0 else (1, 0)).1 = 1
  by_cases h : env.fopenOk
  · simpa [h] using devLoop_status env.freadResults 0 len 0
  · simp [h]

/-- Claim C9: the entropy backend is fixed at compile time by the
configuration macros: the build compiles to the implementation of exactly
the selected backend (no runtime fallback from one generator to another),
and a configuration defining none of the five macros hits `#error` and does
not compile (`osRandomBuild = none`). -/
theorem backend_fixed_at_compile_time (c : RngConfig) :
    (osRandomBuild c = none ↔
      c.useGetrandom = false ∧ c.useArc4random = false ∧
      c.useSecrandom = false ∧ c.useCryptgenrandom = false ∧
      c.useDevRandom = false) ∧
    ∀ b, selectBackend c = some b →
      osRandomBuild c = some (os_random_secrandom b) := by
  constructor
  · obtain ⟨g, a, s, cg, d⟩ := c
    cases g <;> cases a <;> cases s <;> cases cg <;> cases d <;>
      simp [osRandomBuild, selectBackend]
  · intro b h
    simp [osRandomBuild, h]

/-- Witness for C9 at a concrete configuration: with only `USE_DEV_RANDOM`
defined, the build is exactly the `/dev/urandom` implementation. -/
theorem backend_fixed_at_compile_time_witness :
    osRandomBuild ⟨false, false, false, false, true⟩ =
      some (os_random_secrandom .devrandom) :=
  (backend_fixed_at_compile_time ⟨false, false, false, false, true⟩).2
    .devrandom rfl

/-- Claim C10 as stated is false: in the `USE_DEV_RANDOM` backend the file
`/dev/urandom` is opened before the length is examined, so when `fopen`
fails the function returns 1 even for a requested length of zero. -/
theorem length_zero_can_fail :
    os_random_secrandom .devrandom
      ⟨some 0, true, true, true, false, fun _ => 0⟩ 0 = (1, 0) := rfl

/-- Claim C10, amended: the return value of `os_random_secrandom` is always
exactly 0 or 1; for a requested length of zero no buffer byte is touched,
and the call returns 0 provided the backend's platform calls themselves
succeed (for `arc4random`, always) — a failing platform call (such as
`fopen` of `/dev/urandom` or `CryptAcquireContext`) still yields 1 even at
length zero. -/
theorem os_random_status_and_zero_length (b : Backend) (env : RngEnv)
    (len : Nat) :
    ((os_random_secrandom b env len).1 = 0 ∨
      (os_random_secrandom b env len).1 = 1) ∧
    (os_random_secrandom b env 0).2 = 0 ∧
    (setupOk b env = true → (os_random_secrandom b env 0).1 = 0) := by
  cases b with
  | getrandom =>
    cases h : env.getrandomResult <;>
      simp [os_random_secrandom, setupOk, h]
  | arc4random => simp [os_random_secrandom, setupOk]
  | secrandom =>
    cases h : env.secRandomOk <;> simp [os_random_secrandom, setupOk, h]
  | cryptgenrandom =>
    cases h1 : env.cryptAcquireOk <;> cases h2 : env.cryptGenOk <;>
      simp [os_random_secrandom, setupOk, h1, h2]
  | devrandom =>
    cases h : env.fopenOk <;>
      simp [os_random_secrandom, setupOk, h, devLoop_zero, devLoop_status]

/-- Witness for the amended C10 at a concrete input: the `arc4random`
backend at length zero reports success. -/
theorem os_random_status_and_zero_length_witness :
    (os_random_secrandom .arc4random
      ⟨some 0, true, true, true, true, fun _ => 0⟩ 0).1 = 0 :=
  (os_random_status_and_zero_length .arc4random
    ⟨some 0, true, true, true, true, fun _ => 0⟩ 0).2.2 rfl

/-- Claim C2: a successful `generate_ed25519_keypair` call stores the private
key component inside the vault under the given record path and returns to
the caller exactly the public key bytes — never the private component. -/
theorem generate_keypair_returns_public_only (st : VaultMap) (vk rp : String)
    (priv : Bytes) :
    ∃ st', generate_ed25519_keypair st vk rp (.ok priv) =
        .ok (ed25519PublicKey priv, st') ∧
      vaultRead st' vk rp = some (.keypair (ed25519PublicKey priv) priv) := by
  exact ⟨vaultWrite st vk rp (.keypair (ed25519PublicKey priv) priv), rfl,
    vaultRead_write_same st vk rp _⟩

/-- Claim C3: derivation is a pure function of (seed, index): two
`derive_seed` calls over the same stored seed and index — even on different
snapshot states or vault keys — yield bit-identical bytes, and distinct
32-bit indices yield distinct derived keys. -/
theorem derive_seed_deterministic (st st2 : VaultMap) (vk vk2 : String)
    (s : Bytes) (i j : Nat)
    (hs : vaultRead st vk seedPath = some (.seed s))
    (hs2 : vaultRead st2 vk2 seedPath = some (.seed s))
    (hi : i < 4294967296) (hj : j < 4294967296) :
    derive_seed st vk i = .ok (deriveKDF s i) ∧
    derive_seed st2 vk2 i = derive_seed st vk i ∧
    (i ≠ j → derive_seed st vk i ≠ derive_seed st vk j) := by
  refine ⟨by simp [derive_seed, hs], by simp [derive_seed, hs, hs2], ?_⟩
  intro hne
  simp only [derive_seed, hs, Except.ok.injEq, ne_eq]
  exact deriveKDF_index_inj s i j hi hj hne

/-- Witness for C3 at a concrete snapshot: with seed `[1, 2]` stored for
vault key `v`, deriving at index 5 twice is bit-identical and differs from
deriving at index 6. -/
theorem derive_seed_deterministic_witness :
    derive_seed (vaultWrite [] "v" seedPath (.seed [1, 2])) "v" 5 =
      .ok (deriveKDF [1, 2] 5) ∧
    derive_seed (vaultWrite [] "v" seedPath (.seed [1, 2])) "v" 5 =
      derive_seed (vaultWrite [] "v" seedPath (.seed [1, 2])) "v" 5 ∧
    derive_seed (vaultWrite [] "v" seedPath (.seed [1, 2])) "v" 5 ≠
      derive_seed (vaultWrite [] "v" seedPath (.seed [1, 2])) "v" 6 := by
  have h := derive_seed_deterministic
    (vaultWrite [] "v" seedPath (.seed [1, 2]))
    (vaultWrite [] "v" seedPath (.seed [1, 2])) "v" "v" [1, 2] 5 6
    (by decide) (by decide) (by decide) (by decide)
  exact ⟨h.1, h.2.1, h.2.2 (by decide)⟩

/-- Claim C4: once `generate_seed` has succeeded on a vault key, a second
`generate_seed` call on the same vault key fails with `AlreadyExists`, and
after that failed call `derive_seed` still works using the original,
unchanged seed. -/
theorem generate_seed_singleton (st st' : VaultMap) (vk : String) (b : Bytes)
    (ent : Except Unit Bytes) (i : Nat)
    (h : generate_seed st vk (.ok b) = .ok st') :
    generate_seed st' vk ent = .error .AlreadyExists ∧
    vaultRead st' vk seedPath = some (.seed b) ∧
    derive_seed st' vk i = .ok (deriveKDF b i) := by
  unfold generate_seed at h
  cases hv : vaultRead st vk seedPath with
  | some p => simp [hv] at h
  | none =>
    simp only [hv, Except.ok.injEq] at h
    subst h
    have hr := vaultRead_write_same st vk seedPath (.seed b)
    exact ⟨by simp [generate_seed, hr], hr, by simp [derive_seed, hr]⟩

/-- Witness for C4 at a concrete snapshot: generating seed `[9]` for vault
key `v` in the empty directory, then calling `generate_seed` again. -/
theorem generate_seed_singleton_witness :
    generate_seed (vaultWrite [] "v" seedPath (.seed [9])) "v" (.error ()) =
      .error .AlreadyExists ∧
    vaultRead (vaultWrite [] "v" seedPath (.seed [9])) "v" seedPath =
      some (.seed [9]) ∧
    derive_seed (vaultWrite [] "v" seedPath (.seed [9])) "v" 0 =
      .ok (deriveKDF [9] 0) :=
  generate_seed_singleton [] (vaultWrite [] "v" seedPath (.seed [9])) "v"
    [9] (.error ()) 0 rfl

/-- Claim C5: loading a snapshot with any key other than the one it was
created with fails with `AuthenticationFailed` and yields no vault data at
all — decryption fails closed. -/
theorem load_wrong_key_fails_closed (st : VaultMap) (key wrong : String)
    (h : wrong ≠ key) :
    load (snapshotCreate key st) wrong = .error .AuthenticationFailed := by
  simp [load, snapshotCreate, h]

/-- Witness for C5 at a concrete snapshot: a container created under key
`k` rejects the key `wrong`. -/
theorem load_wrong_key_fails_closed_witness :
    load (snapshotCreate "k" []) "wrong" = .error .AuthenticationFailed :=
  load_wrong_key_fails_closed [] "k" "wrong" (by decide)

theorem applyGenerateSeed_fail_unchanged (st : VaultMap) (vk : String)
    (ent : Except Unit Bytes)
    (h : (applyGenerateSeed st vk ent).2 ≠ none) :
    (applyGenerateSeed st vk ent).1 = st := by
  unfold applyGenerateSeed at h ⊢
  cases hg : generate_seed st vk ent with
  | ok st' => rw [hg] at h; exact absurd rfl h
  | error e => rfl

theorem applyGenerateKeypair_fail_unchanged (st : VaultMap) (vk rp : String)
    (ent : Except Unit Bytes)
    (h : (applyGenerateKeypair st vk rp ent).2 ≠ none) :
    (applyGenerateKeypair st vk rp ent).1 = st := by
  unfold applyGenerateKeypair at h ⊢
  cases hg : generate_ed25519_keypair st vk rp ent with
  | ok out => rw [hg] at h; exact absurd rfl h
  | error e => rfl

/-- Claim C6: engine operations are atomic with respect to the snapshot
state: whenever a mutating operation — `generate_seed` under any of its
failure modes, or `generate_ed25519_keypair` — fails, the facade leaves the
snapshot's vaults and records exactly as they were, with no
partially-created record observable (the remaining operations,
`derive_seed`, `sign`, `get_public_key` and `load`, return values only and
never produce a snapshot state).  In particular an Entropy Source failure
during `generate_seed` reports an error and creates no seed record. -/
theorem engine_ops_atomic_on_failure (st : VaultMap) (vk rp : String)
    (ent ent2 : Except Unit Bytes) :
    ((applyGenerateSeed st vk ent).2 ≠ none →
      (applyGenerateSeed st vk ent).1 = st ∧
      ∀ vk' rp', vaultRead (applyGenerateSeed st vk ent).1 vk' rp' =
        vaultRead st vk' rp') ∧
    ((applyGenerateKeypair st vk rp ent2).2 ≠ none →
      (applyGenerateKeypair st vk rp ent2).1 = st ∧
      ∀ vk' rp', vaultRead (applyGenerateKeypair st vk rp ent2).1 vk' rp' =
        vaultRead st vk' rp') ∧
    (applyGenerateSeed st vk (.error ())).2 ≠ none ∧
    (applyGenerateSeed st vk (.error ())).1 = st := by
  refine ⟨?_, ?_, ?_, ?_⟩
  · intro h
    have h1 := applyGenerateSeed_fail_unchanged st vk ent h
    exact ⟨h1, fun vk' rp' => by rw [h1]⟩
  · intro h
    have h1 := applyGenerateKeypair_fail_unchanged st vk rp ent2 h
    exact ⟨h1, fun vk' rp' => by rw [h1]⟩
  · unfold applyGenerateSeed generate_seed
    cases hv : vaultRead st vk seedPath <;> simp [hv]
  · unfold applyGenerateSeed generate_seed
    cases hv : vaultRead st vk seedPath <;> simp [hv]

/-- Witness for C6 at concrete failing calls: an entropy failure during
`generate_seed` and during `generate_ed25519_keypair` on the empty
directory leaves it empty. -/
theorem engine_ops_atomic_on_failure_witness :
    (applyGenerateSeed [] "v" (.error ())).1 = [] ∧
    (applyGenerateKeypair [] "v" "r" (.error ())).1 = [] :=
  ⟨((engine_ops_atomic_on_failure [] "v" "r" (.error ()) (.error ())).1
      (by decide)).1,
   ((engine_ops_atomic_on_failure [] "v" "r" (.error ()) (.error ())).2.1
      (by decide)).1⟩

/-- Claim C7: a successful `sign` call returns a signature of exactly 64
bytes, and the signature is a deterministic function of the private key and
the data: any record holding the same private key — in any snapshot state
and under any record path — signs the same data to the same 64 bytes. -/
theorem sign_deterministic_64_bytes (st st2 : VaultMap) (rp rp2 : String)
    (data pub pub2 priv : Bytes)
    (h : findRecord st rp = some (.keypair pub priv))
    (h2 : findRecord st2 rp2 = some (.keypair pub2 priv)) :
    sign st rp data = .ok (ed25519Sign priv data) ∧
    (ed25519Sign priv data).length = 64 ∧
    sign st2 rp2 data = sign st rp data := by
  exact ⟨by simp [sign, h], by simp [ed25519Sign], by simp [sign, h, h2]⟩

/-- Witness for C7 at a concrete snapshot: a keypair with private key `[7]`
stored under record path `r` signs `[5]` deterministically with a 64-byte
signature. -/
theorem sign_deterministic_64_bytes_witness :
    sign (vaultWrite [] "v" "r" (.keypair [] [7])) "r" [5] =
      .ok (ed25519Sign [7] [5]) ∧
    (ed25519Sign [7] [5]).length = 64 ∧
    sign (vaultWrite [] "v" "r" (.keypair [] [7])) "r" [5] =
      sign (vaultWrite [] "v" "r" (.keypair [] [7])) "r" [5] :=
  sign_deterministic_64_bytes (vaultWrite [] "v" "r" (.keypair [] [7]))
    (vaultWrite [] "v" "r" (.keypair [] [7])) "r" "r" [5] [] [] [7]
    rfl rfl

end Stronghold
